import Mathlib

/-!
Verification of the recording-session core of `src/src-tauri/src/audio/mod.rs`.

The development shallowly embeds the module's data model and operations:

* the sample normalizer (`f32_to_i16`, `u16_to_i16`, the identity path for
  native `i16` samples);
* the real-time input callback shared by the three sample formats (lock
  acquisition, the `Option`-wrapped WAV writer, the every-Nth-sample
  down-mix loop, the per-sample write/counter step);
* the worker thread's setup sequence inside `RecordingSession::start`
  (device lookup, config query, file creation, WAV-writer creation, stream
  build, stream play, the `ready` handshake channel) together with the
  caller side of the handshake;
* the worker thread's shutdown sequence (stop signal, stream drop, sample
  count read, duration computation, writer lock, finalize, size read);
* the session-naming code (local-time filename stem, UTC `created_at`).

Numeric conventions: Rust `f32` samples are modelled as rationals.  Every
concrete sample value appearing in the claims (`1.0`, `-1.0`, `1.5`,
`-2.0`) and the scale factor `32767.0 = i16::MAX as f32` are exactly
representable in IEEE-754 binary32, and the products and comparisons the
code performs on them are exact, so the rational model computes the same
results as the `f32` code on these inputs.  Rust's `as i16` cast on floats
(round toward zero, saturate at the type bounds) is modelled by
`ratTrunc`/`i16SatOfRat`.  Machine integers are modelled as `Int`/`Nat`
with explicit wrap-around where the source can overflow.
-/

/-! ## Sample normalizer (`f32_to_i16`, `u16_to_i16`, source lines 57-64) -/

/-- Truncation toward zero of a rational, the rounding used by Rust's
float-to-integer `as` cast. -/
def ratTrunc (q : ℚ) : ℤ := if 0 ≤ q then ⌊q⌋ else -⌊-q⌋

/-- Rust `as i16` applied to a float value: round toward zero, then
saturate at the `i16` bounds. -/
def i16SatOfRat (q : ℚ) : ℤ :=
  if ratTrunc q < -32768 then -32768
  else if 32767 < ratTrunc q then 32767
  else ratTrunc q

/-- Rust's `f32::clamp(lo, hi)`: below `lo` gives `lo`, above `hi` gives
`hi`, otherwise the value itself. -/
def rustClamp (lo hi s : ℚ) : ℚ := if s < lo then lo else if hi < s then hi else s

/-- Embedding of `f32_to_i16` (source lines 57-60):
`let clamped = s.clamp(-1.0, 1.0); (clamped * i16::MAX as f32) as i16`. -/
def f32_to_i16 (s : ℚ) : ℤ := i16SatOfRat (rustClamp (-1) 1 s * 32767)

/-- Two's-complement wrap into the `i16` range, the semantics of Rust's
integer `as i16` cast. -/
def wrapI16 (n : ℤ) : ℤ := (n + 32768) % 65536 - 32768

/-- Embedding of `u16_to_i16` (source lines 62-64):
`(s as i32 - 32768) as i16`.  The subtraction is exact in `i32`; the final
cast wraps into the `i16` range. -/
def u16_to_i16 (s : ℕ) : ℤ := wrapI16 ((s : ℤ) - 32768)

/-- The native `i16` path writes `data[i]` unchanged (source line 159);
there is no conversion function for it in the source. -/
def i16_native (s : ℤ) : ℤ := s

theorem ratTrunc_intCast (n : ℤ) : ratTrunc (n : ℚ) = n := by
  unfold ratTrunc
  by_cases h : (0 : ℚ) ≤ (n : ℚ)
  · rw [if_pos h, Int.floor_intCast]
  · rw [if_neg h, ← Int.cast_neg, Int.floor_intCast, neg_neg]

theorem ratTrunc_nonneg {q : ℚ} (h : 0 ≤ q) : 0 ≤ ratTrunc q := by
  unfold ratTrunc
  rw [if_pos h]
  exact Int.floor_nonneg.mpr h

theorem ratTrunc_le_of_le {q : ℚ} {B : ℤ} (hB : 0 ≤ B) (h : q ≤ (B : ℚ)) :
    ratTrunc q ≤ B := by
  unfold ratTrunc
  by_cases h0 : (0 : ℚ) ≤ q
  · rw [if_pos h0]
    calc ⌊q⌋ ≤ ⌊(B : ℚ)⌋ := Int.floor_le_floor h
    _ = B := Int.floor_intCast B
  · rw [if_neg h0]
    have : 0 ≤ ⌊-q⌋ := Int.floor_nonneg.mpr (by linarith [lt_of_not_le h0])
    omega

theorem ratTrunc_neg_bound {q : ℚ} {B : ℤ} (hB : 0 ≤ B) (h : (-B : ℚ) ≤ q) :
    -B ≤ ratTrunc q := by
  unfold ratTrunc
  by_cases h0 : (0 : ℚ) ≤ q
  · rw [if_pos h0]
    have : 0 ≤ ⌊q⌋ := Int.floor_nonneg.mpr h0
    omega
  · rw [if_neg h0]
    have hq : -q ≤ (B : ℚ) := by
      have := neg_le_neg h
      simpa using this
    have : ⌊-q⌋ ≤ ⌊(B : ℚ)⌋ := Int.floor_le_floor hq
    rw [Int.floor_intCast] at this
    omega

theorem rustClamp_mem {lo hi s : ℚ} (hlohi : lo ≤ hi) :
    lo ≤ rustClamp lo hi s ∧ rustClamp lo hi s ≤ hi := by
  unfold rustClamp
  split
  · exact ⟨le_refl lo, hlohi⟩
  · split
    · exact ⟨hlohi, le_refl hi⟩
    · constructor <;> linarith [le_of_not_lt (by assumption : ¬ s < lo),
        le_of_not_lt (by assumption : ¬ hi < s)]

theorem rustClamp_of_ge {s : ℚ} (h : 1 ≤ s) : rustClamp (-1) 1 s = 1 := by
  unfold rustClamp
  rw [if_neg (by linarith)]
  by_cases h1 : (1 : ℚ) < s
  · rw [if_pos h1]
  · rw [if_neg h1]
    linarith [le_of_not_lt h1]

theorem rustClamp_of_le {s : ℚ} (h : s ≤ -1) : rustClamp (-1) 1 s = -1 := by
  unfold rustClamp
  by_cases h1 : s < -1
  · rw [if_pos h1]
  · rw [if_neg h1, if_neg (by linarith)]
    linarith [le_of_not_lt h1]

theorem f32_to_i16_of_ge {s : ℚ} (h : 1 ≤ s) : f32_to_i16 s = 32767 := by
  have h2 : ((1 : ℚ) * 32767) = ((32767 : ℤ) : ℚ) := by norm_num
  rw [f32_to_i16, rustClamp_of_ge h, h2]
  rw [i16SatOfRat, ratTrunc_intCast]
  norm_num

theorem f32_to_i16_of_le {s : ℚ} (h : s ≤ -1) : f32_to_i16 s = -32767 := by
  have h2 : ((-1 : ℚ) * 32767) = ((-32767 : ℤ) : ℚ) := by norm_num
  rw [f32_to_i16, rustClamp_of_le h, h2]
  rw [i16SatOfRat, ratTrunc_intCast]
  norm_num

theorem f32_to_i16_one : f32_to_i16 1 = 32767 := f32_to_i16_of_ge le_rfl

theorem f32_to_i16_neg_one : f32_to_i16 (-1) = -32767 := f32_to_i16_of_le le_rfl

theorem f32_to_i16_bounds (s : ℚ) : -32767 ≤ f32_to_i16 s ∧ f32_to_i16 s ≤ 32767 := by
  have hc := @rustClamp_mem (-1) 1 s (by norm_num)
  set c := rustClamp (-1) 1 s with hcdef
  have hq1 : -(32767 : ℚ) ≤ c * 32767 := by nlinarith [hc.1]
  have hq2 : c * 32767 ≤ (32767 : ℚ) := by nlinarith [hc.2]
  have ht1 : (-32767 : ℤ) ≤ ratTrunc (c * 32767) :=
    @ratTrunc_neg_bound (c * 32767) 32767 (by norm_num) (by push_cast; linarith)
  have ht2 : ratTrunc (c * 32767) ≤ (32767 : ℤ) :=
    @ratTrunc_le_of_le (c * 32767) 32767 (by norm_num) (by push_cast; linarith)
  rw [f32_to_i16, ← hcdef, i16SatOfRat]
  split
  · omega
  · split <;> omega

theorem u16_to_i16_max : u16_to_i16 65535 = 32767 := by decide

theorem u16_to_i16_min : u16_to_i16 0 = -32768 := by decide

/-- C3: normalizing each native representation's extremes.  The claim states
that the `f32` minimum `-1.0` normalizes to the canonical minimum `-32768`;
the code computes `(-1.0).clamp(-1.0, 1.0) * 32767.0 = -32767.0`, which
casts to `-32767`, not `-32768`.  This closed theorem refutes the claim at
the concrete input `-1.0`. -/
theorem C3_counterexample : f32_to_i16 (-1) = -32767 ∧ ¬ f32_to_i16 (-1) = -32768 := by
  refine ⟨f32_to_i16_neg_one, ?_⟩
  rw [f32_to_i16_neg_one]
  decide

/-- C3 (amended): normalizing the extremes of the three native sample
representations gives `32767` for `f32` input `1.0`, `-32767` (not
`-32768`) for `f32` input `-1.0`, `32767` for `u16` input `65535`,
`-32768` for `u16` input `0`, and native `i16` samples `32767`/`-32768`
pass through unchanged; no result overflows the `i16` range. -/
theorem C3_theorem :
    f32_to_i16 1 = 32767 ∧ f32_to_i16 (-1) = -32767 ∧
    u16_to_i16 65535 = 32767 ∧ u16_to_i16 0 = -32768 ∧
    i16_native 32767 = 32767 ∧ i16_native (-32768) = -32768 :=
  ⟨f32_to_i16_one, f32_to_i16_neg_one, u16_to_i16_max, u16_to_i16_min, rfl, rfl⟩

/-- C8: the claim states that every out-of-range float input clamps to the
corresponding canonical extreme (canonical minimum `-32768` per the spec);
the code maps `-2.0` to `clamp(-2.0) * 32767.0 = -32767.0`, i.e. `-32767`,
not the canonical minimum `-32768`.  This closed theorem refutes the claim
at the concrete input `-2.0`. -/
theorem C8_counterexample : f32_to_i16 (-2) = -32767 ∧ ¬ f32_to_i16 (-2) = -32768 := by
  have h : f32_to_i16 (-2) = -32767 := f32_to_i16_of_le (by norm_num)
  refine ⟨h, ?_⟩
  rw [h]
  decide

/-- C8 (amended): every float input at or above `1.0` normalizes to
`32767`, every input at or below `-1.0` normalizes to `-32767` (the image
of the clamp bound `-1.0`, one above the canonical minimum), and every
result lies in `[-32767, 32767]` — the conversion clamps and never wraps,
overflows, or panics. -/
theorem C8_theorem (s : ℚ) :
    (1 ≤ s → f32_to_i16 s = 32767) ∧ (s ≤ -1 → f32_to_i16 s = -32767) ∧
    -32767 ≤ f32_to_i16 s ∧ f32_to_i16 s ≤ 32767 :=
  ⟨fun h => f32_to_i16_of_ge h, fun h => f32_to_i16_of_le h, f32_to_i16_bounds s⟩

/-- C8 witness: the amended theorem applied at the spec's own example
inputs `1.5` and `-2.0`. -/
theorem C8_witness : f32_to_i16 (3/2) = 32767 ∧ f32_to_i16 (-2) = -32767 :=
  ⟨(C8_theorem (3/2)).1 (by norm_num), (C8_theorem (-2)).2.1 (by norm_num)⟩

/-! ## Real-time input callback (source lines 125, 148-204) -/

/-- Down-mix stride taken from the device's reported channel count:
`supported.channels().max(1)` (source line 125). -/
def channels_in (channels : ℕ) : ℕ := max channels 1

/-- Rust's `(0..len).step_by(step)` iterator: the indices
`0, step, 2*step, …` that are below `len`.  `step_by` asserts a non-zero
step, so a zero step is a panic, modelled as `none`. -/
def stepBy (len step : ℕ) : Option (List ℕ) :=
  if step = 0 then none
  else some ((List.range ((len + step - 1) / step)).map (· * step))

/-- Shared per-session state touched by the real-time callback: whether
the writer mutex is poisoned, the `Option`-wrapped WAV writer (modelled as
the list of samples it holds), and the atomic `samples_written` counter. -/
structure CbShared where
  poisoned : Bool
  writer : Option (List ℤ)
  samplesWritten : ℕ
  deriving DecidableEq, Repr

/-- One `if let Ok(()) = w.write_sample(sample)` step of the callback loop
(source lines 159-161): `writeOk` is the oracle deciding whether the
underlying I/O write succeeds; on success the sample lands in the writer
and the counter advances, on failure both are unchanged. -/
def writeStep (writeOk : List ℤ → ℤ → Bool) (acc : List ℤ × ℕ) (sample : ℤ) :
    List ℤ × ℕ :=
  if writeOk acc.1 sample then (acc.1 ++ [sample], acc.2 + 1) else acc

/-- The data callback passed to `build_input_stream`, common to the three
sample formats up to the conversion `conv` (source lines 151-163, 169-181,
187-199): a poisoned writer lock returns at once dropping the whole
buffer; a writer that has been taken (`None`) returns at once; otherwise
every `stride`-th sample of `data` is converted and written.  The result
`none` models a panic, which only `step_by(0)` could raise. -/
def inputCallback {α : Type} (writeOk : List ℤ → ℤ → Bool) (conv : α → ℤ) (dflt : α)
    (stride : ℕ) (data : List α) (st : CbShared) : Option CbShared :=
  if st.poisoned then some st
  else
    match st.writer with
    | none => some st
    | some w =>
      match stepBy data.length stride with
      | none => none
      | some idxs =>
        let r := idxs.foldl
          (fun acc i => writeStep writeOk acc (conv (data.getD i dflt)))
          (w, st.samplesWritten)
        some ⟨st.poisoned, some r.1, r.2⟩

/-- C4: once the writer option is `None` (as it is after finalize), every
invocation of the real-time callback is a silent no-op — the state,
including the `samples_written` counter, is returned unchanged and no
panic occurs; likewise a poisoned writer lock makes the callback drop the
whole buffer and return its state unchanged rather than panic. -/
theorem C4_theorem {α : Type} (writeOk : List ℤ → ℤ → Bool) (conv : α → ℤ) (dflt : α)
    (stride : ℕ) (data : List α) (st : CbShared) :
    (st.writer = none → inputCallback writeOk conv dflt stride data st = some st) ∧
    (st.poisoned = true → inputCallback writeOk conv dflt stride data st = some st) := by
  constructor
  · intro hw
    unfold inputCallback
    rw [hw]
    split <;> rfl
  · intro hp
    unfold inputCallback
    rw [hp]
    rfl

/-- C4 witness: the no-op guarantees at concrete states — a taken writer
(even with a zero stride, which would panic inside the loop) and a
poisoned lock with a live writer. -/
theorem C4_witness :
    inputCallback (fun _ _ => true) i16_native 0 0 [1, 2]
      ⟨false, none, 5⟩ = some ⟨false, none, 5⟩ ∧
    inputCallback (fun _ _ => true) i16_native 0 2 [1, 2]
      ⟨true, some [7], 3⟩ = some ⟨true, some [7], 3⟩ :=
  ⟨(C4_theorem (fun _ _ => true) i16_native 0 0 [1, 2] ⟨false, none, 5⟩).1 rfl,
   (C4_theorem (fun _ _ => true) i16_native 0 2 [1, 2] ⟨true, some [7], 3⟩).2 rfl⟩

/-- C10: the stride used by every callback is the device's channel count
clamped to at least one, `channels.max(1)`, so it is never zero, the
`step_by` iteration is well defined, and the callback never panics, for
every reported channel count (including zero) and every state. -/
theorem C10_theorem {α : Type} (writeOk : List ℤ → ℤ → Bool) (conv : α → ℤ) (dflt : α)
    (channels : ℕ) (data : List α) (st : CbShared) :
    1 ≤ channels_in channels ∧
    (stepBy data.length (channels_in channels)).isSome = true ∧
    (inputCallback writeOk conv dflt (channels_in channels) data st).isSome = true := by
  have h1 : 1 ≤ channels_in channels := le_max_right channels 1
  have h0 : channels_in channels ≠ 0 := by omega
  have h2 : (stepBy data.length (channels_in channels)).isSome = true := by
    unfold stepBy
    rw [if_neg h0]
    rfl
  refine ⟨h1, h2, ?_⟩
  unfold inputCallback
  split
  · rfl
  · match hw : st.writer with
    | none => rfl
    | some w =>
      simp only []
      unfold stepBy
      rw [if_neg h0]
      rfl

/-! ## Startup sequence of `RecordingSession::start` (source lines 90-254) -/

/-- The sample formats `cpal` can report; `other` stands for every format
outside the three the code handles (the `_` arm at source line 203). -/
inductive SampleFormat
  | fmtI16 | fmtU16 | fmtF32 | other
  deriving DecidableEq, Repr

/-- Success/failure outcomes of the fallible steps of `start` and of the
worker thread's setup, abstracting the devices and the filesystem. -/
structure Env where
  createDirOk : Bool
  hasDefaultDevice : Bool
  defaultConfigOk : Bool
  sampleFormat : SampleFormat
  fileCreateOk : Bool
  wavNewOk : Bool
  buildStreamOk : Bool
  playOk : Bool
  deriving DecidableEq, Repr

/-- Embedding of the `AudioError` enum (source lines 12-28); `ioErr` and
`wavErr` stand for the `Io` and `Wav` variants, keeping only the message
of the wrapped error. -/
inductive AudioError
  | noDefaultInputDevice
  | defaultInputConfig
  | buildStream
  | playStream
  | ioErr (msg : String)
  | wavErr
  | unsupportedSampleFormat
  deriving DecidableEq, Repr

/-- Observable outcome of the worker thread's setup phase (source lines
117-208): `readySent` is the ordered sequence of messages the thread sends
on `ready_tx` before blocking or exiting, `fileCreated` records whether
`File::create(&path)` has succeeded (the file then exists on disk and no
code path removes it), and `threadResult` is `some e` exactly when the
closure returns `Err(e)` before entering its capture loop. -/
structure SetupOutcome where
  readySent : List (Except AudioError Unit)
  fileCreated : Bool
  threadResult : Option AudioError
  deriving Repr

/-- The worker thread's setup phase, transcribed from source lines
117-208: default device lookup, default config query, `File::create`,
`hound::WavWriter::new`, the sample-format match (an unhandled format is
`UnsupportedSampleFormat`, a handled one builds the stream), `stream.play()`,
and finally `ready_tx.send(Ok(()))`.  Every failure propagates out of the
closure through `?` — none of these paths sends anything on `ready_tx`. -/
def workerSetup (env : Env) : SetupOutcome :=
  if !env.hasDefaultDevice then ⟨[], false, some .noDefaultInputDevice⟩
  else if !env.defaultConfigOk then ⟨[], false, some .defaultInputConfig⟩
  else if !env.fileCreateOk then ⟨[], false, some (.ioErr "file create failed")⟩
  else if !env.wavNewOk then ⟨[], true, some .wavErr⟩
  else
    match env.sampleFormat with
    | .other => ⟨[], true, some .unsupportedSampleFormat⟩
    | _ =>
      if !env.buildStreamOk then ⟨[], true, some .buildStream⟩
      else if !env.playOk then ⟨[], true, some .playStream⟩
      else ⟨[.ok ()], true, none⟩

/-- The caller side of `RecordingSession::start` (source lines 90-91 and
240-253): `create_dir_all` first (its failure returns before any file or
thread exists), then the thread is spawned and `start` blocks on
`ready_rx.recv()` — the first message sent decides the result, and a
channel whose sender was dropped without a message yields the generic
`Io("recording thread failed to initialize")` error.  The second
component records whether the session's output file exists on disk when
`start` returns. -/
def startResult (env : Env) : Except AudioError Unit × Bool :=
  if !env.createDirOk then (.error (.ioErr "create dir failed"), false)
  else
    let o := workerSetup env
    match o.readySent with
    | [] => (.error (.ioErr "recording thread failed to initialize"), o.fileCreated)
    | .ok () :: _ => (.ok (), o.fileCreated)
    | .error e :: _ => (.error e, o.fileCreated)

/-- Boolean test for the error case of an `Except`. -/
def isErr {ε α : Type} : Except ε α → Bool
  | .error _ => true
  | .ok _ => false

/-- Environment in which everything works except that there is no default
input device — the first failure case named by the claim. -/
def envNoDevice : Env :=
  ⟨true, false, true, .fmtF32, true, true, true, true⟩

/-- C1: at a setup failure inside the worker thread (here: no default
input device) the thread's closure does return the typed error, but the
only message ever sent on the ready channel is the success message, so
nothing is sent before the thread exits and `start` returns the generic
`Io("recording thread failed to initialize")` error instead of the typed
`NoDefaultInputDevice` error — contradicting the claim and the code's own
comment "If initialization failed, return the exact error". -/
theorem C1_theorem :
    (workerSetup envNoDevice).threadResult = some AudioError.noDefaultInputDevice ∧
    (workerSetup envNoDevice).readySent = [] ∧
    (startResult envNoDevice).1 =
      Except.error (AudioError.ioErr "recording thread failed to initialize") ∧
    ¬ (startResult envNoDevice).1 = Except.error AudioError.noDefaultInputDevice := by
  refine ⟨rfl, rfl, rfl, fun h => ?_⟩
  have h' : AudioError.ioErr "recording thread failed to initialize" =
      AudioError.noDefaultInputDevice := by
    have hh : (startResult envNoDevice).1 =
        Except.error (AudioError.ioErr "recording thread failed to initialize") := rfl
    rw [hh] at h
    injection h
  exact absurd h' (by decide)

/-- Environment in which directory creation, device lookup, config query,
file creation and WAV-writer creation all succeed but building the input
stream fails — a failure step that the claim says must leave no file. -/
def envBuildFail : Env :=
  ⟨true, true, true, .fmtF32, true, true, false, true⟩

/-- C2: when the input-stream build fails, `start_recording` returns an
error, yet the output file created earlier by `File::create` still exists
on disk — no error path removes it.  This closed theorem refutes the
claim at that concrete failure. -/
theorem C2_counterexample :
    isErr (startResult envBuildFail).1 = true ∧ (startResult envBuildFail).2 = true :=
  ⟨rfl, rfl⟩

/-- C2 (amended): after `start_recording`, the session's output file
exists on disk exactly when directory creation, device lookup, config
query and `File::create` all succeeded.  In particular a start that fails
during directory creation, device lookup, config query or file open leaves
no file, while a start that fails at WAV-writer creation, an unsupported
sample format, stream build or stream play returns an error with the
already-created file left behind. -/
theorem C2_theorem (env : Env) :
    (startResult env).2 =
      (env.createDirOk && env.hasDefaultDevice && env.defaultConfigOk &&
        env.fileCreateOk) := by
  obtain ⟨cd, dev, cfg, fmt, fc, wn, bs, pl⟩ := env
  cases cd <;> cases dev <;> cases cfg <;> cases fc <;> cases wn <;>
    cases bs <;> cases pl <;> cases fmt <;> rfl

/-! ## Shutdown sequence of the worker thread (source lines 210-237)
and `RecordingSession::stop` -/

/-- The steps of the worker thread's shutdown path, in the order the
source executes them. -/
inductive WEvent
  | recvStop | dropStream | readSamples | lockWriter | finalizeWriter | readSize
  deriving DecidableEq, Repr

/-- State owned by the worker thread while the session runs: the shared
callback state, whether the capture stream (and with it the device
callback) is still alive, the device sample rate, and the file's on-disk
size after the encoder is flushed. -/
structure WorkerState where
  shared : CbShared
  streamLive : Bool
  sampleRate : ℕ
  fileSizeOnDisk : ℕ
  deriving DecidableEq, Repr

/-- Embedding of the `FinishedRecording` struct (source lines 30-36);
`duration_sec` is a rational standing for the `f64` field. -/
structure FinishedRecording where
  filename : String
  created_at : String
  duration_sec : ℚ
  size_bytes : ℕ
  deriving DecidableEq, Repr

/-- Duration computation of the shutdown path (source lines 216-221):
zero when the sample rate is zero, otherwise the sample count divided by
the sample rate. -/
def duration_sec (samples sample_rate : ℕ) : ℚ :=
  if sample_rate = 0 then 0 else (samples : ℚ) / (sample_rate : ℚ)

/-- The worker thread's shutdown path (source lines 210-237), entered when
`stop_rx.recv()` returns: the stream is dropped (disabling the device
callback), the final sample count is read, the duration computed, the
writer lock taken (a poisoned lock becomes an `Io` error), the writer
taken out of its `Option` and — when it was still present — finalized
(`finalizeOk` is the oracle for `finalize()`), and the on-disk size read
(`metadataOk` the oracle for `fs::metadata`).  Besides the thread's result
it returns the final worker state and the ordered trace of shutdown
events. -/
def workerShutdown (filename created_at : String) (finalizeOk metadataOk : Bool)
    (st : WorkerState) :
    Except AudioError FinishedRecording × WorkerState × List WEvent :=
  let st1 : WorkerState := { st with streamLive := false }
  let dur := duration_sec st1.shared.samplesWritten st1.sampleRate
  let ev := [WEvent.recvStop, WEvent.dropStream, WEvent.readSamples]
  if st1.shared.poisoned then
    (.error (.ioErr "wav writer lock poisoned"), st1, ev ++ [WEvent.lockWriter])
  else
    let st2 : WorkerState := { st1 with shared := { st1.shared with writer := none } }
    match st1.shared.writer with
    | some _ =>
      if finalizeOk then
        if metadataOk then
          (.ok ⟨filename, created_at, dur, st2.fileSizeOnDisk⟩, st2,
            ev ++ [WEvent.lockWriter, WEvent.finalizeWriter, WEvent.readSize])
        else
          (.error (.ioErr "metadata failed"), st2,
            ev ++ [WEvent.lockWriter, WEvent.finalizeWriter, WEvent.readSize])
      else
        (.error .wavErr, st2, ev ++ [WEvent.lockWriter, WEvent.finalizeWriter])
    | none =>
      if metadataOk then
        (.ok ⟨filename, created_at, dur, st2.fileSizeOnDisk⟩, st2,
          ev ++ [WEvent.lockWriter, WEvent.readSize])
      else
        (.error (.ioErr "metadata failed"), st2,
          ev ++ [WEvent.lockWriter, WEvent.readSize])

theorem duration_sec_of_rate_zero (samples : ℕ) : duration_sec samples 0 = 0 := by
  simp [duration_sec]

theorem duration_sec_mul_rate (samples rate : ℕ) (h : rate ≠ 0) :
    duration_sec samples rate * (rate : ℚ) = (samples : ℚ) := by
  rw [duration_sec, if_neg h]
  exact div_mul_cancel₀ _ (Nat.cast_ne_zero.mpr h)

/-- C6: whenever the worker thread's shutdown returns a
`FinishedRecording`, its `duration_sec` field is the final
`samples_written` count divided by the device sample rate, it is `0` when
the sample rate is zero (no divide-by-zero fault), and for a non-zero rate
it satisfies `duration * rate = samples` exactly. -/
theorem C6_theorem (fn ca : String) (fo mo : Bool) (st : WorkerState)
    (fr : FinishedRecording)
    (h : (workerShutdown fn ca fo mo st).1 = Except.ok fr) :
    fr.duration_sec = duration_sec st.shared.samplesWritten st.sampleRate ∧
    (st.sampleRate = 0 → fr.duration_sec = 0) ∧
    (st.sampleRate ≠ 0 →
      fr.duration_sec * (st.sampleRate : ℚ) = (st.shared.samplesWritten : ℚ)) := by
  have hd : fr.duration_sec = duration_sec st.shared.samplesWritten st.sampleRate := by
    by_cases hp : st.shared.poisoned = true
    · simp [workerShutdown, hp] at h
    · cases hw : st.shared.writer with
      | some w =>
        by_cases hfo : fo = true
        · by_cases hmo : mo = true
          · simp [workerShutdown, hp, hw, hfo, hmo] at h
            rw [← h]
          · simp [workerShutdown, hp, hw, hfo, hmo] at h
        · simp [workerShutdown, hp, hw, hfo] at h
      | none =>
        by_cases hmo : mo = true
        · simp [workerShutdown, hp, hw, hmo] at h
          rw [← h]
        · simp [workerShutdown, hp, hw, hmo] at h
  refine ⟨hd, fun h0 => ?_, fun h0 => ?_⟩
  · rw [hd, h0, duration_sec_of_rate_zero]
  · rw [hd]
    exact duration_sec_mul_rate _ _ h0

/-- Concrete worker states used as witnesses: a running session with
48000 samples captured at a 16000 Hz device rate, and one whose device
reported a zero sample rate. -/
def stRun : WorkerState := ⟨⟨false, some [], 48000⟩, true, 16000, 96044⟩

/-- Filename and `created_at` strings of the witness session. -/
def fnW : String := "f"

def caW : String := "c"

def stZero : WorkerState := ⟨⟨false, some [], 500⟩, true, 0, 44⟩

def frRun : FinishedRecording := ⟨"f", "c", duration_sec 48000 16000, 96044⟩

def frZero : FinishedRecording := ⟨"f", "c", duration_sec 500 0, 44⟩

/-- C6 witness: the duration law evaluated on a successful shutdown with
48000 samples at 16000 Hz, and the zero-rate case yielding duration 0. -/
theorem C6_witness :
    frRun.duration_sec * ((16000 : ℕ) : ℚ) = ((48000 : ℕ) : ℚ) ∧
    frZero.duration_sec = 0 :=
  ⟨(C6_theorem fnW caW true true stRun frRun rfl).2.2 (by decide),
   (C6_theorem fnW caW true true stZero frZero rfl).2.1 rfl⟩

/-- C7: on every shutdown path the capture stream is dropped (the device
callback disabled) strictly before finalization of the writer can begin:
the final worker state has a dead stream, the stream-drop event sits at
position 1 of the shutdown trace, and whenever a finalize event occurs in
the trace it occurs strictly after the stream-drop event. -/
theorem C7_theorem (fn ca : String) (fo mo : Bool) (st : WorkerState) :
    (workerShutdown fn ca fo mo st).2.1.streamLive = false ∧
    (workerShutdown fn ca fo mo st).2.2.indexOf WEvent.dropStream = 1 ∧
    (WEvent.finalizeWriter ∈ (workerShutdown fn ca fo mo st).2.2 →
      (workerShutdown fn ca fo mo st).2.2.indexOf WEvent.dropStream <
        (workerShutdown fn ca fo mo st).2.2.indexOf WEvent.finalizeWriter) := by
  by_cases hp : st.shared.poisoned = true
  · refine ⟨?_, ?_, ?_⟩ <;> simp [workerShutdown, hp]
  · cases hw : st.shared.writer with
    | some w =>
      by_cases hfo : fo = true
      · by_cases hmo : mo = true
        · refine ⟨?_, ?_, ?_⟩ <;> simp [workerShutdown, hp, hw, hfo, hmo]
        · refine ⟨?_, ?_, ?_⟩ <;> simp [workerShutdown, hp, hw, hfo, hmo]
      · refine ⟨?_, ?_, ?_⟩ <;> simp [workerShutdown, hp, hw, hfo]
    | none =>
      by_cases hmo : mo = true
      · refine ⟨?_, ?_, ?_⟩ <;> simp [workerShutdown, hp, hw, hmo]
      · refine ⟨?_, ?_, ?_⟩ <;> simp [workerShutdown, hp, hw, hmo]

/-- C7 witness: the ordering evaluated on a concrete successful shutdown,
whose trace does contain the finalize event. -/
theorem C7_witness :
    (workerShutdown "f" "c" true true stRun).2.2.indexOf WEvent.dropStream <
      (workerShutdown "f" "c" true true stRun).2.2.indexOf WEvent.finalizeWriter :=
  (C7_theorem fnW caW true true stRun).2.2 (by decide)

/-! ## Session naming (source lines 44-55 and 93-109) -/

/-- Calendar fields of a date-time as a formatter reads them. -/
structure Cal where
  year : ℕ
  month : ℕ
  day : ℕ
  hour : ℕ
  minute : ℕ
  second : ℕ
  deriving DecidableEq, Repr

/-- One item of a `time` crate format description: a literal or a
zero-padded calendar component. -/
inductive FmtItem
  | lit (s : String)
  | year | month | day | hour | minute | second
  deriving DecidableEq, Repr

/-- Zero-pad the decimal representation of `n` to at least `w` digits, the
default padding of the `time` crate's numeric components (width 4 for the
year, 2 for the others). -/
def pad (w n : ℕ) : String :=
  String.mk (List.replicate (w - (Nat.repr n).length) '0') ++ Nat.repr n

/-- Render one format item against the calendar fields `c`. -/
def renderItem (c : Cal) : FmtItem → String
  | .lit s => s
  | .year => pad 4 c.year
  | .month => pad 2 c.month
  | .day => pad 2 c.day
  | .hour => pad 2 c.hour
  | .minute => pad 2 c.minute
  | .second => pad 2 c.second

/-- Run a format description: render each item in order into an initially
empty output buffer. -/
def runFormat (items : List FmtItem) (c : Cal) : String :=
  (items.map (renderItem c)).foldl (· ++ ·) ""

/-- `filename_format()` (source lines 44-46), the description
`[year]-[month]-[day]_[hour]-[minute]-[second]`. -/
def filename_format : List FmtItem :=
  [.year, .lit "-", .month, .lit "-", .day, .lit "_",
   .hour, .lit "-", .minute, .lit "-", .second]

/-- `created_at_format()` (source lines 48-51), the description
`[year]-[month]-[day]T[hour]:[minute]:[second]Z`. -/
def created_at_format : List FmtItem :=
  [.year, .lit "-", .month, .lit "-", .day, .lit "T",
   .hour, .lit ":", .minute, .lit ":", .second, .lit "Z"]

/-- An `OffsetDateTime` of the `time` crate: an absolute instant (seconds
since the epoch) together with the UTC offset its calendar fields are
rendered in. -/
structure ODateTime where
  instant : ℤ
  offsetSeconds : ℤ
  deriving DecidableEq, Repr

/-- The calendar fields a formatter sees for a date-time: the proleptic
Gregorian calendar function (owned by the `time` crate and abstracted here
as the parameter `civil`) applied to the instant shifted by the offset. -/
def localFields (civil : ℤ → Cal) (dt : ODateTime) : Cal :=
  civil (dt.instant + dt.offsetSeconds)

/-- `now.to_offset(time::UtcOffset::UTC)` (source line 98): the same
instant with offset zero. -/
def to_offset_utc (dt : ODateTime) : ODateTime := ⟨dt.instant, 0⟩

/-- The naming fragment of `RecordingSession::start` (source lines
93-108): the stem is `now` (the local wall clock) formatted with
`filename_format`, `created_at` is `now.to_offset(UTC)` formatted with
`created_at_format`, and the filename is the stem with `.wav` appended
(`format!("{stem}.wav")`).  These format descriptions cannot fail on a
valid date-time, so the `unwrap_or_else("recording")` arm at line 96 and
the manual RFC3339 fallback at lines 101-106 are dead and not modelled. -/
def startNaming (civil : ℤ → Cal) (now : ODateTime) : String × String :=
  let stem := runFormat filename_format (localFields civil now)
  let created_at := runFormat created_at_format (localFields civil (to_offset_utc now))
  (stem ++ ".wav", created_at)

/-- C9: for every session-start instant and local offset, the filename is
the local wall-clock fields rendered as `YYYY-MM-DD_HH-MM-SS` followed by
the fixed `.wav` extension, and `created_at` is the very same instant's
UTC fields (offset zero, instant unchanged) rendered as
`YYYY-MM-DDTHH:MM:SSZ`. -/
theorem C9_theorem (civil : ℤ → Cal) (now : ODateTime) :
    (startNaming civil now).1 =
      pad 4 (civil (now.instant + now.offsetSeconds)).year ++ "-" ++
      pad 2 (civil (now.instant + now.offsetSeconds)).month ++ "-" ++
      pad 2 (civil (now.instant + now.offsetSeconds)).day ++ "_" ++
      pad 2 (civil (now.instant + now.offsetSeconds)).hour ++ "-" ++
      pad 2 (civil (now.instant + now.offsetSeconds)).minute ++ "-" ++
      pad 2 (civil (now.instant + now.offsetSeconds)).second ++ ".wav" ∧
    (startNaming civil now).2 =
      pad 4 (civil now.instant).year ++ "-" ++
      pad 2 (civil now.instant).month ++ "-" ++
      pad 2 (civil now.instant).day ++ "T" ++
      pad 2 (civil now.instant).hour ++ ":" ++
      pad 2 (civil now.instant).minute ++ ":" ++
      pad 2 (civil now.instant).second ++ "Z" ∧
    (to_offset_utc now).instant = now.instant := by
  refine ⟨?_, ?_, rfl⟩
  · simp [startNaming, runFormat, filename_format, renderItem, localFields,
      String.empty_append, String.append_assoc]
  · simp [startNaming, runFormat, created_at_format, renderItem, localFields,
      to_offset_utc, String.empty_append, String.append_assoc]
